import Mathlib

/-!
Verification of the sales-entry bot (`bot.py`): a shallow embedding of its
pure core — the numeric-cleaning helper, the catalog price resolver, the
callback-driven wizard transition, the quantity handler, and the report
aggregators — together with theorems settling the frozen claims.

Python machine values are modelled as follows: strings are Lean `String`s
manipulated through executable `List Char` helpers mirroring the Python
string methods used by the source; Python `float` prices are modelled as
`ℚ` (the source only parses, multiplies and compares them, never exercises
binary floating-point rounding); `None`-able DB columns are `Option String`;
fallible external effects (the ledger append) are modelled by an explicit
success flag.
-/

namespace DogSalesBot

/-- Characters Python `str.strip` removes (the whitespace characters that can
actually occur in this data: space, tab, CR, LF, vertical tab, form feed and
non-breaking space). -/
def pyWhite (c : Char) : Bool :=
  c = ' ' || c = '\t' || c = '\n' || c = '\r' ||
  c = Char.ofNat 11 || c = Char.ofNat 12 || c = Char.ofNat 0xa0

/-- Python `str.strip()`: drop whitespace from both ends. -/
def pyStrip (s : String) : String :=
  ⟨((s.data.dropWhile pyWhite).reverse.dropWhile pyWhite).reverse⟩

/-- Lower-case one character, covering the alphabets this data uses
(ASCII letters and Cyrillic А..Я and Ё), mirroring Python `str.lower`
on those ranges. -/
def lowerChar (c : Char) : Char :=
  if 'A' ≤ c ∧ c ≤ 'Z' then Char.ofNat (c.toNat + 32)
  else if Char.ofNat 0x410 ≤ c ∧ c ≤ Char.ofNat 0x42F then Char.ofNat (c.toNat + 32)
  else if c = Char.ofNat 0x401 then Char.ofNat 0x451
  else c

/-- Python `str.lower()` restricted to the alphabets used by this data. -/
def pyLower (s : String) : String := ⟨s.data.map lowerChar⟩

/-- Replace every (non-overlapping, leftmost-first) occurrence of `pat` by
`rep`, on character lists; fuelled so the recursion is structural. -/
def replaceAux : Nat → List Char → List Char → List Char → List Char
  | 0, s, _, _ => s
  | _ + 1, [], _, _ => []
  | fuel + 1, c :: cs, pat, rep =>
    if pat.isPrefixOf (c :: cs) then
      rep ++ replaceAux fuel (List.drop pat.length (c :: cs)) pat rep
    else
      c :: replaceAux fuel cs pat rep

/-- Python `s.replace(pat, rep)` for a non-empty `pat`. -/
def pyReplace (s pat rep : String) : String :=
  ⟨replaceAux s.data.length s.data pat.data rep.data⟩

/-- Python `s.startswith(p)`. -/
def startsWith (s p : String) : Bool := p.data.isPrefixOf s.data

/-- A cell value as the Python code may receive it from the spreadsheet
client: a string or an already-numeric integer.  (Binary floats do not
occur in the claims and are outside the model.) -/
inductive CellValue where
  | str (s : String)
  | int (n : Int)
deriving DecidableEq

/-- Python truthiness of a `CellValue` (`not value`): the empty string and
zero are falsy. -/
def CellValue.truthy : CellValue → Bool
  | .str s => s ≠ ""
  | .int n => n ≠ 0

/-- Embedding of `clean_numeric_value` (`bot.py` lines 52–65): falsy input
maps to `"0"`; an integer is rendered with `str`; a string has the currency
suffix `"р."`, plain and non-breaking spaces removed, the decimal comma
normalised to a point, and is finally stripped. -/
def clean_numeric_value (value : CellValue) : String :=
  if ¬ value.truthy then "0"
  else
    match value with
    | .int n => toString n
    | .str s =>
      pyStrip (pyReplace (pyReplace (pyReplace (pyReplace s "р." "") " " "") "\xa0" "") "," ".")

/-- Claim C9: the numeric-cleaning function maps `"1 234,50 р."` to
`"1234.50"`, the empty string to `"0"`, and the integer `1500` to
`"1500"`. -/
theorem C9_clean_numeric_round_trip :
    clean_numeric_value (.str "1 234,50 р.") = "1234.50" ∧
    clean_numeric_value (.str "") = "0" ∧
    clean_numeric_value (.int 1500) = "1500" := by
  refine ⟨by decide, by decide, rfl⟩

/-- Decimal digit test. -/
def isDigitChar (c : Char) : Bool := '0' ≤ c && c ≤ '9'

/-- Numeric value of a digit string (most significant first). -/
def natOfDigits (l : List Char) : Nat := l.foldl (fun a c => 10 * a + (c.toNat - '0'.toNat)) 0

/-- Python `float(s)` on the cleaned strings this program feeds it: an
optional sign followed by `digits`, `digits.digits?` or `.digits`, valued in
`ℚ`.  (Exponent, `inf`/`nan` and underscore forms never occur in this data
and are outside the model.) -/
def pyFloatOfStr : String → Option ℚ := fun s =>
  let core : List Char → Option ℚ := fun l =>
    let ip := l.takeWhile isDigitChar
    let rest := l.dropWhile isDigitChar
    match rest with
    | [] => if ip.isEmpty then none else some ((natOfDigits ip : ℚ))
    | '.' :: frac =>
      if frac.all isDigitChar ∧ (ip ≠ [] ∨ frac ≠ []) then
        some ((natOfDigits (ip ++ frac) : ℚ) / ((10 : ℚ) ^ frac.length))
      else none
    | _ => none
  match s.data with
  | '+' :: rest => core rest
  | '-' :: rest => (core rest).map (fun q => -q)
  | l => core l

/-- Python `int(s)` on stripped input: an optional sign followed by one or
more digits.  (Underscore grouping never occurs in this data and is outside
the model.) -/
def pyIntOfStr : String → Option Int := fun s =>
  let core : List Char → Option Int := fun l =>
    if l ≠ [] ∧ l.all isDigitChar then some ((natOfDigits l : Int)) else none
  match s.data with
  | '+' :: rest => core rest
  | '-' :: rest => (core rest).map (fun n => -n)
  | l => core l

/-! ### Price resolver (`get_product_price_from_catalog`, lines 373–522) -/

/-- A raw catalog row: the ordered list of string cells. -/
abbrev Row := List String

/-- Cell access with the code's `row[i] if len(row) > i else ""` guard. -/
def cell (r : Row) (i : Nat) : String := r.getD i ""

/-- The resolver's `normalize`: lower-case and strip, with falsy input
(including Python `None`, which reaches it as an absent value) mapped to
the empty string. -/
def normStr (s : String) : String := if s = "" then "" else pyStrip (pyLower s)

/-- `normalize` applied to a nullable DB column. -/
def normOpt : Option String → String
  | none => ""
  | some s => normStr s

/-- The stripped price cell (`row[8].strip()`). -/
def rowPrice (r : Row) : String := pyStrip (cell r 8)

/-- One step of the exact-tier scan: `None` on a short row or a mismatched
row or an unparsable price, otherwise the parsed price. -/
def exactHit (npt nw ns nl nct nc : String) (r : Row) : Option ℚ :=
  if r.length < 9 then none
  else if normStr (cell r 2) = npt ∧ (nw = "" ∨ normStr (cell r 3) = nw) ∧
      (ns = "" ∨ normStr (cell r 4) = ns) ∧ (nl = "" ∨ normStr (cell r 5) = nl) ∧
      normStr (cell r 6) = nct ∧ normStr (cell r 7) = nc ∧ rowPrice r ≠ "" then
    pyFloatOfStr (clean_numeric_value (.str (rowPrice r)))
  else none

/-- One step of the first relaxed scan (product type + colour type + colour). -/
def relaxedAHit (npt nct nc : String) (r : Row) : Option ℚ :=
  if r.length < 9 then none
  else if normStr (cell r 2) = npt ∧ normStr (cell r 6) = nct ∧
      normStr (cell r 7) = nc ∧ rowPrice r ≠ "" then
    pyFloatOfStr (clean_numeric_value (.str (rowPrice r)))
  else none

/-- One step of the second relaxed scan (product type + colour). -/
def relaxedBHit (npt nc : String) (r : Row) : Option ℚ :=
  if r.length < 9 then none
  else if normStr (cell r 2) = npt ∧ normStr (cell r 7) = nc ∧ rowPrice r ≠ "" then
    pyFloatOfStr (clean_numeric_value (.str (rowPrice r)))
  else none

/-- Embedding of `get_product_price_from_catalog`: the `"None"` sentinel
fixup on `size`, `width` and `length` (only), normalisation of all six
query values, then three sequential scans over the catalog body (header
dropped), returning `0` when nothing matches. -/
def get_product_price_from_catalog
    (product_type width size length color_type color : Option String)
    (all_data : List Row) : ℚ :=
  let size := if size = some "None" then some "" else size
  let width := if width = some "None" then some "" else width
  let length := if length = some "None" then some "" else length
  let npt := normOpt product_type
  let nw := normOpt width
  let ns := normOpt size
  let nl := normOpt length
  let nct := normOpt color_type
  let nc := normOpt color
  let rows := all_data.drop 1
  match rows.findSome? (exactHit npt nw ns nl nct nc) with
  | some p => p
  | none =>
    match rows.findSome? (relaxedAHit npt nct nc) with
    | some p => p
    | none =>
      match rows.findSome? (relaxedBHit npt nc) with
      | some p => p
      | none => 0

/-! Spec-side formulation of the resolver (from the spec's words, for the
refinement claim C1): per-tier *match predicates* over catalog entries, a
first-success search per tier, and the tiers tried in order with `0` as the
`NotFound` result. -/

/-- The numeric price of a catalog entry, when its price cell is non-empty
and numerically parseable after cleaning. -/
def entryPrice (r : Row) : Option ℚ :=
  pyFloatOfStr (clean_numeric_value (.str (rowPrice r)))

/-- Spec exact tier: an entry (a full row of at least 9 cells) matches if
`productType` matches exactly, `width`/`size`/`length` each match when the
query value is empty or equal, `colorType` and `color` match exactly, and
the entry has a non-empty, numeric price. -/
def specExactMatch (npt nw ns nl nct nc : String) (r : Row) : Bool :=
  decide (¬ r.length < 9) && (normStr (cell r 2) == npt) &&
  ((nw == "") || (normStr (cell r 3) == nw)) &&
  ((ns == "") || (normStr (cell r 4) == ns)) &&
  ((nl == "") || (normStr (cell r 5) == nl)) &&
  (normStr (cell r 6) == nct) && (normStr (cell r 7) == nc) &&
  (rowPrice r != "") && (entryPrice r).isSome

/-- Spec relaxed tier A: drop width/size/length; match `productType`,
`colorType` and `color` only, with a usable price. -/
def specRelaxedAMatch (npt nct nc : String) (r : Row) : Bool :=
  decide (¬ r.length < 9) && (normStr (cell r 2) == npt) &&
  (normStr (cell r 6) == nct) && (normStr (cell r 7) == nc) &&
  (rowPrice r != "") && (entryPrice r).isSome

/-- Spec relaxed tier B: drop `colorType` too; match `productType` and
`color` only, with a usable price. -/
def specRelaxedBMatch (npt nc : String) (r : Row) : Bool :=
  decide (¬ r.length < 9) && (normStr (cell r 2) == npt) &&
  (normStr (cell r 7) == nc) && (rowPrice r != "") && (entryPrice r).isSome

/-- The price of the first entry of a tier that matches. -/
def specTierPrice (p : Row → Bool) (rows : List Row) : Option ℚ :=
  (rows.find? p).bind entryPrice

/-- Spec-side resolver: the first success of the three tiers in order, `0`
(`NotFound`) otherwise. -/
def specResolvePrice
    (product_type width size length color_type color : Option String)
    (all_data : List Row) : ℚ :=
  let size := if size = some "None" then some "" else size
  let width := if width = some "None" then some "" else width
  let length := if length = some "None" then some "" else length
  let npt := normOpt product_type
  let nw := normOpt width
  let ns := normOpt size
  let nl := normOpt length
  let nct := normOpt color_type
  let nc := normOpt color
  let rows := all_data.drop 1
  (((specTierPrice (specExactMatch npt nw ns nl nct nc) rows).orElse
      (fun _ => specTierPrice (specRelaxedAMatch npt nct nc) rows)).orElse
    (fun _ => specTierPrice (specRelaxedBMatch npt nc) rows)).getD 0

/-- A guarded scan (`findSome?` of a conditional extractor) equals the
first-match-then-extract formulation, given pointwise agreement. -/
theorem findSome?_eq_find?_bind {α β : Type} (f g : α → Option β) (p : α → Bool)
    (h1 : ∀ a, p a = (f a).isSome) (h2 : ∀ a, p a = true → f a = g a) :
    ∀ l : List α, l.findSome? f = (l.find? p).bind g := by
  intro l
  induction l with
  | nil => rfl
  | cons a l ih =>
    rw [List.findSome?_cons, List.find?_cons]
    cases hfa : f a with
    | some b =>
      have hpa : p a = true := by rw [h1, hfa]; rfl
      rw [hpa]
      simp [← h2 a hpa, hfa]
    | none =>
      have hpa : p a = false := by rw [h1, hfa]; rfl
      rw [hpa]
      simpa using ih

theorem specExactMatch_eq_isSome (npt nw ns nl nct nc : String) (r : Row) :
    specExactMatch npt nw ns nl nct nc r = (exactHit npt nw ns nl nct nc r).isSome := by
  rw [Bool.eq_iff_iff]
  unfold specExactMatch exactHit entryPrice
  split_ifs with h9 hm
  · simp [h9]
  · obtain ⟨h1, h2, h3, h4, h5, h6, h7⟩ := hm
    simp [h9, h1, h2, h3, h4, h5, h6, h7]
  · simp only [Bool.and_eq_true, Bool.or_eq_true, beq_iff_eq, decide_eq_true_eq,
      Option.isSome_none, bne_iff_ne]
    constructor
    · rintro ⟨⟨⟨⟨⟨⟨⟨⟨-, c1⟩, c2⟩, c3⟩, c4⟩, c5⟩, c6⟩, c7⟩, -⟩
      exact absurd ⟨c1, c2, c3, c4, c5, c6, c7⟩ hm
    · exact fun h => (Bool.false_ne_true h).elim

theorem specExactMatch_hit (npt nw ns nl nct nc : String) (r : Row)
    (h : specExactMatch npt nw ns nl nct nc r = true) :
    exactHit npt nw ns nl nct nc r = entryPrice r := by
  rw [specExactMatch_eq_isSome] at h
  unfold exactHit at h ⊢
  unfold entryPrice
  split_ifs at h ⊢ <;> simp_all

theorem specRelaxedAMatch_eq_isSome (npt nct nc : String) (r : Row) :
    specRelaxedAMatch npt nct nc r = (relaxedAHit npt nct nc r).isSome := by
  rw [Bool.eq_iff_iff]
  unfold specRelaxedAMatch relaxedAHit entryPrice
  split_ifs with h9 hm
  · simp [h9]
  · obtain ⟨h1, h2, h3, h4⟩ := hm
    simp [h9, h1, h2, h3, h4]
  · simp only [Bool.and_eq_true, beq_iff_eq, decide_eq_true_eq, Option.isSome_none,
      bne_iff_ne]
    constructor
    · rintro ⟨⟨⟨⟨⟨-, c1⟩, c2⟩, c3⟩, c4⟩, -⟩
      exact absurd ⟨c1, c2, c3, c4⟩ hm
    · exact fun h => (Bool.false_ne_true h).elim

theorem specRelaxedAMatch_hit (npt nct nc : String) (r : Row)
    (h : specRelaxedAMatch npt nct nc r = true) :
    relaxedAHit npt nct nc r = entryPrice r := by
  rw [specRelaxedAMatch_eq_isSome] at h
  unfold relaxedAHit at h ⊢
  unfold entryPrice
  split_ifs at h ⊢ <;> simp_all

theorem specRelaxedBMatch_eq_isSome (npt nc : String) (r : Row) :
    specRelaxedBMatch npt nc r = (relaxedBHit npt nc r).isSome := by
  rw [Bool.eq_iff_iff]
  unfold specRelaxedBMatch relaxedBHit entryPrice
  split_ifs with h9 hm
  · simp [h9]
  · obtain ⟨h1, h2, h3⟩ := hm
    simp [h9, h1, h2, h3]
  · simp only [Bool.and_eq_true, beq_iff_eq, decide_eq_true_eq, Option.isSome_none,
      bne_iff_ne]
    constructor
    · rintro ⟨⟨⟨⟨-, c1⟩, c2⟩, c3⟩, -⟩
      exact absurd ⟨c1, c2, c3⟩ hm
    · exact fun h => (Bool.false_ne_true h).elim

theorem specRelaxedBMatch_hit (npt nc : String) (r : Row)
    (h : specRelaxedBMatch npt nc r = true) :
    relaxedBHit npt nc r = entryPrice r := by
  rw [specRelaxedBMatch_eq_isSome] at h
  unfold relaxedBHit at h ⊢
  unfold entryPrice
  split_ifs at h ⊢ <;> simp_all

/-- The concrete two-row catalog of the spec's tiering test: one exact-match
row and one colour-only-match row for the same product type. -/
def tieringCatalog : List Row :=
  [["№", "sku", "Тип", "Ширина", "Размер", "Длина", "Тип расцветки", "Расцветка", "Цена"],
   ["1", "a", "collar", "2", "m", "", "bright", "red", "100"],
   ["2", "b", "collar", "", "", "", "", "red", "50"]]

/-- Claim C1: the resolver returns the first success of the tiers in order
(exact tier, then product type + colour type + colour, then product type +
colour), and `0` otherwise; and on the spec's concrete two-row catalog a
full-attribute query returns the exact row's price while a mismatched-width
query returns the relaxed-tier price rather than `NotFound`. -/
theorem C1_price_resolver_tiering :
    (∀ (product_type width size length color_type color : Option String)
       (all_data : List Row),
       get_product_price_from_catalog product_type width size length color_type color all_data
         = specResolvePrice product_type width size length color_type color all_data) ∧
    get_product_price_from_catalog (some "collar") (some "2") (some "m") none
        (some "bright") (some "red") tieringCatalog = 100 ∧
    get_product_price_from_catalog (some "collar") (some "9") (some "m") none
        (some "bright") (some "red") tieringCatalog = 100 ∧
    get_product_price_from_catalog (some "collar") (some "9") (some "m") none
        (some "bright") (some "red") tieringCatalog ≠ 0 := by
  refine ⟨?_, by decide, by decide, by decide⟩
  intro pt w s l ct c all_data
  unfold get_product_price_from_catalog specResolvePrice specTierPrice
  dsimp only
  rw [findSome?_eq_find?_bind (exactHit _ _ _ _ _ _) entryPrice (specExactMatch _ _ _ _ _ _)
      (fun r => (specExactMatch_eq_isSome _ _ _ _ _ _ r))
      (fun r h => specExactMatch_hit _ _ _ _ _ _ r h),
    findSome?_eq_find?_bind (relaxedAHit _ _ _) entryPrice (specRelaxedAMatch _ _ _)
      (fun r => (specRelaxedAMatch_eq_isSome _ _ _ r))
      (fun r h => specRelaxedAMatch_hit _ _ _ r h),
    findSome?_eq_find?_bind (relaxedBHit _ _) entryPrice (specRelaxedBMatch _ _)
      (fun r => (specRelaxedBMatch_eq_isSome _ _ r))
      (fun r h => specRelaxedBMatch_hit _ _ r h)]
  cases (List.find? (specExactMatch _ _ _ _ _ _) _).bind entryPrice with
  | some p => simp
  | none =>
    cases (List.find? (specRelaxedAMatch _ _ _) _).bind entryPrice with
    | some p => simp
    | none => cases (List.find? (specRelaxedBMatch _ _) _).bind entryPrice <;> simp

/-- A catalog distinguishing the `"None"` sentinel from the empty string in
the `colorType` query position: an entry with colour type `abc` first, then
an entry with an empty colour type, both for product `x` / colour `red`. -/
def sentinelCatalog : List Row :=
  [["№", "sku", "Тип", "Ширина", "Размер", "Длина", "Тип расцветки", "Расцветка", "Цена"],
   ["1", "a", "x", "", "", "", "abc", "red", "200"],
   ["2", "b", "x", "", "", "", "", "red", "100"]]

/-- Counterexample to claim C6: the sentinel `"None"` is *not* treated as
empty for `colorType`.  Querying with colour type `"None"` falls through to
the colour-only tier and returns `200`, while the same query with an empty
colour type matches the exact tier and returns `100`; under the claim the
two would be equal. -/
theorem C6_counterexample :
    get_product_price_from_catalog (some "x") none none none (some "None") (some "red")
        sentinelCatalog = 200 ∧
    get_product_price_from_catalog (some "x") none none none (some "") (some "red")
        sentinelCatalog = 100 := by
  exact ⟨by decide, by decide⟩

/-- Claim C6 (amended): the `"None"`/empty equivalence holds for `width`,
`size` and `length` only (where the code rewrites the sentinel to the empty
string), not for `productType`, `colorType` or `color`; and all six
comparisons are case-insensitive and whitespace-trimmed, in the sense that
query values with equal lower-cased, stripped normal forms are
interchangeable — unconditionally for `productType`/`colorType`/`color`,
and away from the `"None"` sentinel for `width`/`size`/`length`. -/
theorem C6_normalization_amended
    (pt w s l ct c : Option String) (d : List Row) :
    (get_product_price_from_catalog pt (some "None") s l ct c d
       = get_product_price_from_catalog pt (some "") s l ct c d) ∧
    (get_product_price_from_catalog pt w (some "None") l ct c d
       = get_product_price_from_catalog pt w (some "") l ct c d) ∧
    (get_product_price_from_catalog pt w s (some "None") ct c d
       = get_product_price_from_catalog pt w s (some "") ct c d) ∧
    (∀ pt2, normOpt pt2 = normOpt pt →
       get_product_price_from_catalog pt2 w s l ct c d
         = get_product_price_from_catalog pt w s l ct c d) ∧
    (∀ ct2, normOpt ct2 = normOpt ct →
       get_product_price_from_catalog pt w s l ct2 c d
         = get_product_price_from_catalog pt w s l ct c d) ∧
    (∀ c2, normOpt c2 = normOpt c →
       get_product_price_from_catalog pt w s l ct c2 d
         = get_product_price_from_catalog pt w s l ct c d) ∧
    (∀ w2, w2 ≠ some "None" → w ≠ some "None" → normOpt w2 = normOpt w →
       get_product_price_from_catalog pt w2 s l ct c d
         = get_product_price_from_catalog pt w s l ct c d) ∧
    (∀ s2, s2 ≠ some "None" → s ≠ some "None" → normOpt s2 = normOpt s →
       get_product_price_from_catalog pt w s2 l ct c d
         = get_product_price_from_catalog pt w s l ct c d) ∧
    (∀ l2, l2 ≠ some "None" → l ≠ some "None" → normOpt l2 = normOpt l →
       get_product_price_from_catalog pt w s l2 ct c d
         = get_product_price_from_catalog pt w s l ct c d) := by
  refine ⟨rfl, rfl, rfl, ?_, ?_, ?_, ?_, ?_, ?_⟩
  · intro pt2 h
    simp only [get_product_price_from_catalog, h]
  · intro ct2 h
    simp only [get_product_price_from_catalog, h]
  · intro c2 h
    simp only [get_product_price_from_catalog, h]
  · intro w2 h2 h1 h
    simp only [get_product_price_from_catalog, if_neg h2, if_neg h1, h]
  · intro s2 h2 h1 h
    simp only [get_product_price_from_catalog, if_neg h2, if_neg h1, h]
  · intro l2 h2 h1 h
    simp only [get_product_price_from_catalog, if_neg h2, if_neg h1, h]

/-- Witness for the amended C6 at concrete inputs: `" COLLAR "` and
`"collar"` normalize identically, so they are interchangeable as product
type on the concrete tiering catalog. -/
theorem C6_amended_witness :
    normOpt (some " COLLAR ") = normOpt (some "collar") ∧
    get_product_price_from_catalog (some " COLLAR ") (some "2") (some "m") none
        (some "bright") (some "red") tieringCatalog
      = get_product_price_from_catalog (some "collar") (some "2") (some "m") none
        (some "bright") (some "red") tieringCatalog := by
  refine ⟨by decide, ?_⟩
  exact (C6_normalization_amended (some "collar") (some "2") (some "m") none
      (some "bright") (some "red") tieringCatalog).2.2.2.1 (some " COLLAR ") (by decide)

/-! ### Wizard state machine (`handle_callback_query`, lines 1139–1558) -/

/-- The persisted per-user draft row (`user_states` table): nullable string
columns keyed by `user_id`. -/
structure UserState where
  user_id : Int
  channel : Option String
  product_type : Option String
  width : Option String
  size : Option String
  length : Option String
  color_type : Option String
  color : Option String
  payment_method : Option String
deriving DecidableEq

/-- One parsed row of the product-type reference table. -/
structure ProductTypeInfo where
  type : String
  has_width : Bool
  has_size : Bool
  has_length : Bool
deriving DecidableEq

/-- Python truthiness of a nullable string column (`not user_state.get(f)`):
`NULL` and the empty string are falsy. -/
def falsy : Option String → Bool
  | none => true
  | some s => s = ""

/-- The draft row created by the channel-branch `INSERT` (only `user_id`
and `channel` are set). -/
def freshState (uid : Int) (ch : String) : UserState :=
  ⟨uid, some ch, none, none, none, none, none, none, none⟩

/-- The outbound reaction of one callback dispatch: which message/keyboard
the handler sends (or that it falls through without replying). -/
inductive Reply where
  | cancelled
  | reportChannels
  | reportProducts
  | reportExpenses
  | expenseCategoryPrompt (category : String)
  | errorRetry
  | errorTypeNotFound
  | productTypePrompt
  | widthPrompt
  | sizePrompt (width : String)
  | lengthPrompt (width : String)
  | colorTypePrompt
  | colorPrompt (color_type : String)
  | paymentPrompt
  | manualPricePrompt (price : ℚ)
  | quantityPrompt (price : ℚ)
  | noReply
deriving DecidableEq

/-- Embedding of `handle_callback_query`: given the persisted draft (or
none), the callback payload, the reference product-type table and the
catalog sheet, produce the new persisted draft and the reply.  The branch
order, prefix tests, `replace`-based payload decoding, unconditional field
writes and skip logic follow the source line by line. -/
def handle_callback_query (uid : Int) (st : Option UserState) (data : String)
    (ref : List ProductTypeInfo) (catalog : List Row) : Option UserState × Reply :=
  if data == "cancel" then (none, .cancelled)
  else if data == "report_channels" then (st, .reportChannels)
  else if data == "report_products" then (st, .reportProducts)
  else if data == "report_expenses" then (st, .reportExpenses)
  else if startsWith data "expense_cat_" then
    (st, .expenseCategoryPrompt (pyReplace data "expense_cat_" ""))
  else
    match st with
    | none => (some (freshState uid data), .productTypePrompt)
    | some s =>
      if falsy s.channel then (some { s with channel := some data }, .productTypePrompt)
      else if startsWith data "type_" && falsy s.product_type then
        let pt := pyReplace data "type_" ""
        (some { s with product_type := some pt },
          match ref.find? (fun p => p.type = pt) with
          | none => .errorRetry
          | some info =>
            if pt = "Лежанка" ∨ pt = "Бусы" then .colorTypePrompt
            else if info.has_width then .widthPrompt
            else if info.has_size then .sizePrompt ""
            else if info.has_length then .lengthPrompt ""
            else .colorTypePrompt)
      else if startsWith data "width_" && falsy s.width then
        let w := pyReplace data "width_" ""
        (some { s with width := some w },
          match s.product_type with
          | none => .errorTypeNotFound
          | some pt =>
            match ref.find? (fun p => p.type = pt) with
            | none => .errorTypeNotFound
            | some info =>
              if info.has_size then .sizePrompt w
              else if info.has_length then .lengthPrompt w
              else .colorTypePrompt)
      else if startsWith data "size_" && falsy s.size then
        (some { s with size := some (pyReplace data "size_" "") }, .colorTypePrompt)
      else if startsWith data "length_" && falsy s.length then
        (some { s with length := some (pyReplace data "length_" "") }, .colorTypePrompt)
      else if startsWith data "colortype_" && falsy s.color_type then
        let ct := pyReplace data "colortype_" ""
        (some { s with color_type := some ct }, .colorPrompt ct)
      else if startsWith data "color_" && falsy s.color then
        (some { s with color := some (pyReplace data "color_" "") }, .paymentPrompt)
      else if data == "manual_price" && falsy s.payment_method then
        (some s, .manualPricePrompt
          (get_product_price_from_catalog s.product_type s.width s.size s.length
            s.color_type s.color catalog))
      else if startsWith data "payment_" && falsy s.payment_method then
        let s1 := { s with payment_method := some (pyReplace data "payment_" "") }
        (some s1, .quantityPrompt
          (get_product_price_from_catalog s1.product_type s1.width s1.size s1.length
            s1.color_type s1.color catalog))
      else (st, .noReply)

/-! Prefix facts used to drive the callback dispatch through its branch
chain when the payload is a prefixed option value. -/

theorem isPrefixOf_append_self (l m : List Char) : l.isPrefixOf (l ++ m) = true := by
  induction l with
  | nil => simp [List.isPrefixOf]
  | cons a t ih => simp [List.isPrefixOf, ih]

/-- A payload built as `p ++ v` starts with `p`. -/
theorem startsWith_append_self (p v : String) : startsWith (p ++ v) p = true := by
  cases p with | mk l =>
  cases v with | mk m =>
  exact isPrefixOf_append_self l m

/-- If `p` and `q` are prefix-incomparable, then `q` is not a prefix of any
payload `p ++ v`. -/
theorem startsWith_append_eq_false (p q v : String)
    (h1 : q.data.isPrefixOf p.data = false) (h2 : p.data.isPrefixOf q.data = false) :
    startsWith (p ++ v) q = false := by
  cases p with | mk l =>
  cases q with | mk ql =>
  cases v with | mk m =>
  simp only [startsWith] at h1 h2 ⊢
  have hdata : (String.mk l ++ String.mk m).data = l ++ m := rfl
  rw [hdata]
  by_contra hc
  rw [Bool.not_eq_false, List.isPrefixOf_iff_prefix] at hc
  rw [← Bool.not_eq_true, List.isPrefixOf_iff_prefix] at h1 h2
  rcases List.prefix_or_prefix_of_prefix (List.prefix_append l m) hc with h | h
  · exact h2 h
  · exact h1 h

/-- If `p` is not a prefix of `q`, then no payload `p ++ v` equals `q`. -/
theorem append_beq_eq_false (p q v : String)
    (h : p.data.isPrefixOf q.data = false) : (p ++ v == q) = false := by
  rw [beq_eq_false_iff_ne]
  intro he
  rw [← Bool.not_eq_true, List.isPrefixOf_iff_prefix] at h
  have hd : p.data ++ v.data = q.data := by
    rw [← he]; cases p; cases v; rfl
  exact h ⟨v.data, hd⟩

/-- Counterexample to claim C4: with an *empty* reference option set, the
arbitrary payload `"garbage"` arriving while no draft exists is accepted and
stored as the draft's channel, instead of failing with `InvalidChoice`. -/
theorem C4_counterexample :
    (handle_callback_query 1 none "garbage" [] []).1 = some (freshState 1 "garbage") ∧
    (freshState 1 "garbage").channel = some "garbage" := by
  exact ⟨rfl, rfl⟩

/-- Claim C4 (amended): the wizard validates only the payload's step prefix
and that the step's draft field is still unset; it never checks membership
in the option sets.  Concretely: (1) any non-special payload arriving while
no draft exists is stored as the channel; (2) any `width_`-prefixed payload
is written into `width` regardless of the reference table; (3) a
`type_`-prefixed payload naming a product type *unknown* to the reference
table is still written into `product_type`, and only the follow-up prompt
is replaced by an error. -/
theorem C4_no_option_validation_amended
    (uid : Int) (s : UserState) (data v : String)
    (ref : List ProductTypeInfo) (catalog : List Row) :
    ((data == "cancel") = false → (data == "report_channels") = false →
     (data == "report_products") = false → (data == "report_expenses") = false →
     startsWith data "expense_cat_" = false →
     handle_callback_query uid none data ref catalog
       = (some (freshState uid data), .productTypePrompt)) ∧
    (falsy s.channel = false → falsy s.width = true →
     (handle_callback_query uid (some s) ("width_" ++ v) ref catalog).1
       = some { s with width := some (pyReplace ("width_" ++ v) "width_" "") }) ∧
    (falsy s.channel = false → falsy s.product_type = true →
     ref.find? (fun p => p.type = pyReplace ("type_" ++ v) "type_" "") = none →
     handle_callback_query uid (some s) ("type_" ++ v) ref catalog
       = (some { s with product_type := some (pyReplace ("type_" ++ v) "type_" "") },
          .errorRetry)) := by
  refine ⟨?_, ?_, ?_⟩
  · intro h1 h2 h3 h4 h5
    simp [handle_callback_query, h1, h2, h3, h4, h5]
  · intro hch hw
    simp only [handle_callback_query,
      append_beq_eq_false "width_" "cancel" v (by decide),
      append_beq_eq_false "width_" "report_channels" v (by decide),
      append_beq_eq_false "width_" "report_products" v (by decide),
      append_beq_eq_false "width_" "report_expenses" v (by decide),
      startsWith_append_eq_false "width_" "expense_cat_" v (by decide) (by decide),
      startsWith_append_eq_false "width_" "type_" v (by decide) (by decide),
      startsWith_append_self, hch, hw, Bool.false_eq_true, Bool.true_and,
      Bool.and_true, Bool.and_false, Bool.false_and, if_false, if_true,
      Bool.true_eq_false, ite_false, ite_true]
  · intro hch hpt hfind
    simp only [handle_callback_query,
      append_beq_eq_false "type_" "cancel" v (by decide),
      append_beq_eq_false "type_" "report_channels" v (by decide),
      append_beq_eq_false "type_" "report_products" v (by decide),
      append_beq_eq_false "type_" "report_expenses" v (by decide),
      startsWith_append_eq_false "type_" "expense_cat_" v (by decide) (by decide),
      startsWith_append_self, hch, hpt, hfind, Bool.false_eq_true, Bool.true_and,
      Bool.and_true, Bool.and_false, Bool.false_and, if_false, if_true,
      Bool.true_eq_false, ite_false, ite_true]

/-- Witness for the amended C4 at concrete inputs: `"garbage"` is stored as
the channel; `"width_77"` is stored as the width even though the reference
table is empty; the unknown `"type_Колесо"` is stored as the product type
and answered with the error prompt. -/
theorem C4_amended_witness :
    handle_callback_query 1 none "garbage" [] []
      = (some (freshState 1 "garbage"), .productTypePrompt) ∧
    (handle_callback_query 2 (some (freshState 2 "site")) ("width_" ++ "77") [] []).1
      = some { freshState 2 "site" with width := some (pyReplace ("width_" ++ "77") "width_" "") } ∧
    handle_callback_query 3 (some (freshState 3 "site")) ("type_" ++ "Колесо") [] []
      = (some { freshState 3 "site" with
          product_type := some (pyReplace ("type_" ++ "Колесо") "type_" "") }, .errorRetry) := by
  refine ⟨?_, ?_, ?_⟩
  · exact (C4_no_option_validation_amended 1 (freshState 1 "x") "garbage" "" [] []).1
      (by decide) (by decide) (by decide) (by decide) (by decide)
  · exact (C4_no_option_validation_amended 2 (freshState 2 "site") "" "77" [] []).2.1
      (by decide) (by decide)
  · exact (C4_no_option_validation_amended 3 (freshState 3 "site") "" "Колесо" [] []).2.2
      (by decide) (by decide) (by decide)

/-- Bool helper: a conjunction is false when the first conjunct being true
forces the second false. -/
theorem and_eq_false_of_imp (a b : Bool) (h : a = true → b = false) : (a && b) = false := by
  cases ha : a
  · rfl
  · simp [h ha]

/-- Counterexample to claim C5: selecting the "simple" product type `Бусы`
(reference row with `has_width = true`) answers with the colour-*type*
selection prompt, not a colour prompt from the flat colour list, and the
draft's `color_type` remains unset rather than being defaulted to a fixed
constant. -/
theorem C5_counterexample :
    handle_callback_query 5 (some (freshState 5 "site")) "type_Бусы"
        [⟨"Бусы", true, true, true⟩] []
      = (some { freshState 5 "site" with product_type := some "Бусы" },
         Reply.colorTypePrompt) ∧
    ({ freshState 5 "site" with product_type := some "Бусы" } : UserState).color_type
      = none := by
  exact ⟨by decide, rfl⟩

/-- Claim C5 (amended): for the designated "simple" product types
(`Лежанка`, `Бусы`) the wizard skips the width/size/length steps and goes
straight to the colour-*type* prompt, regardless of the type's
width/size/length flags; `color_type` is left unset (to be chosen by the
user), not defaulted, and the flat colour list is not used. -/
theorem C5_simple_type_skip_amended
    (uid : Int) (s : UserState) (v : String) (ref : List ProductTypeInfo)
    (catalog : List Row) (info : ProductTypeInfo)
    (hch : falsy s.channel = false) (hpt : falsy s.product_type = true)
    (hfind : ref.find? (fun p => p.type = pyReplace ("type_" ++ v) "type_" "") = some info)
    (hsimple : pyReplace ("type_" ++ v) "type_" "" = "Лежанка" ∨
               pyReplace ("type_" ++ v) "type_" "" = "Бусы") :
    handle_callback_query uid (some s) ("type_" ++ v) ref catalog
      = (some { s with product_type := some (pyReplace ("type_" ++ v) "type_" "") },
         Reply.colorTypePrompt) := by
  simp only [handle_callback_query,
    append_beq_eq_false "type_" "cancel" v (by decide),
    append_beq_eq_false "type_" "report_channels" v (by decide),
    append_beq_eq_false "type_" "report_products" v (by decide),
    append_beq_eq_false "type_" "report_expenses" v (by decide),
    startsWith_append_eq_false "type_" "expense_cat_" v (by decide) (by decide),
    startsWith_append_self, hch, hpt, hfind, Bool.false_eq_true, Bool.true_and,
    Bool.and_true, if_false, if_true, ite_false, ite_true]
  rw [if_pos hsimple]

/-- Witness for the amended C5: with reference row `Бусы` (flags
`has_width = false`, `has_size = true`, `has_length = false`), selecting
`type_Бусы` writes only the product type and prompts for the colour type. -/
theorem C5_amended_witness :
    handle_callback_query 6 (some (freshState 6 "site")) ("type_" ++ "Бусы")
        [⟨"Бусы", false, true, false⟩] []
      = (some { freshState 6 "site" with
          product_type := some (pyReplace ("type_" ++ "Бусы") "type_" "") },
         Reply.colorTypePrompt) := by
  exact C5_simple_type_skip_amended 6 (freshState 6 "site") "Бусы"
    [⟨"Бусы", false, true, false⟩] [] ⟨"Бусы", false, true, false⟩
    (by decide) (by decide) (by decide) (by decide)

/-- Counterexample to claim C2: the payload `"color_red"` pressed while no
draft exists is processed (stored as the *channel*); replaying the very same
button press afterwards is not rejected — it mutates the draft again,
writing `color`. -/
theorem C2_counterexample :
    (handle_callback_query 1 none "color_red" [] []).1
      = some (freshState 1 "color_red") ∧
    (handle_callback_query 1 (some (freshState 1 "color_red")) "color_red" [] []).1
      = some { freshState 1 "color_red" with color := some "red" } ∧
    some { freshState 1 "color_red" with color := some "red" }
      ≠ some (freshState 1 "color_red") := by
  exact ⟨by decide, by decide, by decide⟩

/-- Claim C2 (amended): once the draft's channel is set, any non-`cancel`
action whose *own* step field is already filled (a `type_` press with the
product type set, a `width_` press with the width set, and so on, including
any payload matching no step prefix) is rejected without mutating the
persisted draft.  Replies that merely re-render (reports, expense category,
manual price) also leave the draft untouched. -/
theorem C2_replay_rejection_amended
    (uid : Int) (s : UserState) (data : String)
    (ref : List ProductTypeInfo) (catalog : List Row)
    (hc : (data == "cancel") = false)
    (hch : falsy s.channel = false)
    (h1 : startsWith data "type_" = true → falsy s.product_type = false)
    (h2 : startsWith data "width_" = true → falsy s.width = false)
    (h3 : startsWith data "size_" = true → falsy s.size = false)
    (h4 : startsWith data "length_" = true → falsy s.length = false)
    (h5 : startsWith data "colortype_" = true → falsy s.color_type = false)
    (h6 : startsWith data "color_" = true → falsy s.color = false)
    (h7 : startsWith data "payment_" = true → falsy s.payment_method = false) :
    (handle_callback_query uid (some s) data ref catalog).1 = some s := by
  simp only [handle_callback_query, hc, hch,
    and_eq_false_of_imp _ _ h1, and_eq_false_of_imp _ _ h2, and_eq_false_of_imp _ _ h3,
    and_eq_false_of_imp _ _ h4, and_eq_false_of_imp _ _ h5, and_eq_false_of_imp _ _ h6,
    and_eq_false_of_imp _ _ h7, Bool.false_eq_true, if_false, ite_false]
  split
  · rfl
  · split
    · rfl
    · split
      · rfl
      · split
        · rfl
        · split
          · rfl
          · rfl

/-- Witness for the amended C2: replaying `"color_red"` while the colour is
already set (and the channel is set) leaves the draft unchanged. -/
theorem C2_amended_witness :
    (handle_callback_query 9
        (some { freshState 9 "site" with color := some "red" }) "color_red" [] []).1
      = some { freshState 9 "site" with color := some "red" } := by
  exact C2_replay_rejection_amended 9 { freshState 9 "site" with color := some "red" }
    "color_red" [] [] (by decide) (by decide)
    (fun h => absurd h (by decide)) (fun h => absurd h (by decide))
    (fun h => absurd h (by decide)) (fun h => absurd h (by decide))
    (fun h => absurd h (by decide)) (fun _ => by decide)
    (fun h => absurd h (by decide))

/-- Claim C10: each accepted mid-wizard selection action writes exactly the
field of its step into the persisted draft and leaves `user_id` and every
other field unchanged (the conclusion's record update touches one field
only). -/
theorem C10_single_field_frame
    (uid : Int) (s : UserState) (v : String)
    (ref : List ProductTypeInfo) (catalog : List Row) :
    (falsy s.channel = false → falsy s.width = true →
      (handle_callback_query uid (some s) ("width_" ++ v) ref catalog).1
        = some { s with width := some (pyReplace ("width_" ++ v) "width_" "") }) ∧
    (falsy s.channel = false → falsy s.size = true →
      handle_callback_query uid (some s) ("size_" ++ v) ref catalog
        = (some { s with size := some (pyReplace ("size_" ++ v) "size_" "") },
           Reply.colorTypePrompt)) ∧
    (falsy s.channel = false → falsy s.length = true →
      handle_callback_query uid (some s) ("length_" ++ v) ref catalog
        = (some { s with length := some (pyReplace ("length_" ++ v) "length_" "") },
           Reply.colorTypePrompt)) ∧
    (falsy s.channel = false → falsy s.color_type = true →
      handle_callback_query uid (some s) ("colortype_" ++ v) ref catalog
        = (some { s with color_type := some (pyReplace ("colortype_" ++ v) "colortype_" "") },
           Reply.colorPrompt (pyReplace ("colortype_" ++ v) "colortype_" ""))) ∧
    (falsy s.channel = false → falsy s.color = true →
      handle_callback_query uid (some s) ("color_" ++ v) ref catalog
        = (some { s with color := some (pyReplace ("color_" ++ v) "color_" "") },
           Reply.paymentPrompt)) ∧
    (falsy s.channel = false → falsy s.payment_method = true →
      (handle_callback_query uid (some s) ("payment_" ++ v) ref catalog).1
        = some { s with payment_method := some (pyReplace ("payment_" ++ v) "payment_" "") }) := by
  refine ⟨?_, ?_, ?_, ?_, ?_, ?_⟩
  · intro hch hf
    exact (C4_no_option_validation_amended uid s "" v ref catalog).2.1 hch hf
  · intro hch hf
    simp only [handle_callback_query,
      append_beq_eq_false "size_" "cancel" v (by decide),
      append_beq_eq_false "size_" "report_channels" v (by decide),
      append_beq_eq_false "size_" "report_products" v (by decide),
      append_beq_eq_false "size_" "report_expenses" v (by decide),
      startsWith_append_eq_false "size_" "expense_cat_" v (by decide) (by decide),
      startsWith_append_eq_false "size_" "type_" v (by decide) (by decide),
      startsWith_append_eq_false "size_" "width_" v (by decide) (by decide),
      startsWith_append_self, hch, hf, Bool.false_eq_true, Bool.true_and,
      Bool.and_true, Bool.and_false, Bool.false_and, if_false, if_true,
      ite_false, ite_true]
  · intro hch hf
    simp only [handle_callback_query,
      append_beq_eq_false "length_" "cancel" v (by decide),
      append_beq_eq_false "length_" "report_channels" v (by decide),
      append_beq_eq_false "length_" "report_products" v (by decide),
      append_beq_eq_false "length_" "report_expenses" v (by decide),
      startsWith_append_eq_false "length_" "expense_cat_" v (by decide) (by decide),
      startsWith_append_eq_false "length_" "type_" v (by decide) (by decide),
      startsWith_append_eq_false "length_" "width_" v (by decide) (by decide),
      startsWith_append_eq_false "length_" "size_" v (by decide) (by decide),
      startsWith_append_self, hch, hf, Bool.false_eq_true, Bool.true_and,
      Bool.and_true, Bool.and_false, Bool.false_and, if_false, if_true,
      ite_false, ite_true]
  · intro hch hf
    simp only [handle_callback_query,
      append_beq_eq_false "colortype_" "cancel" v (by decide),
      append_beq_eq_false "colortype_" "report_channels" v (by decide),
      append_beq_eq_false "colortype_" "report_products" v (by decide),
      append_beq_eq_false "colortype_" "report_expenses" v (by decide),
      startsWith_append_eq_false "colortype_" "expense_cat_" v (by decide) (by decide),
      startsWith_append_eq_false "colortype_" "type_" v (by decide) (by decide),
      startsWith_append_eq_false "colortype_" "width_" v (by decide) (by decide),
      startsWith_append_eq_false "colortype_" "size_" v (by decide) (by decide),
      startsWith_append_eq_false "colortype_" "length_" v (by decide) (by decide),
      startsWith_append_self, hch, hf, Bool.false_eq_true, Bool.true_and,
      Bool.and_true, Bool.and_false, Bool.false_and, if_false, if_true,
      ite_false, ite_true]
  · intro hch hf
    simp only [handle_callback_query,
      append_beq_eq_false "color_" "cancel" v (by decide),
      append_beq_eq_false "color_" "report_channels" v (by decide),
      append_beq_eq_false "color_" "report_products" v (by decide),
      append_beq_eq_false "color_" "report_expenses" v (by decide),
      startsWith_append_eq_false "color_" "expense_cat_" v (by decide) (by decide),
      startsWith_append_eq_false "color_" "type_" v (by decide) (by decide),
      startsWith_append_eq_false "color_" "width_" v (by decide) (by decide),
      startsWith_append_eq_false "color_" "size_" v (by decide) (by decide),
      startsWith_append_eq_false "color_" "length_" v (by decide) (by decide),
      startsWith_append_eq_false "color_" "colortype_" v (by decide) (by decide),
      startsWith_append_self, hch, hf, Bool.false_eq_true, Bool.true_and,
      Bool.and_true, Bool.and_false, Bool.false_and, if_false, if_true,
      ite_false, ite_true]
  · intro hch hf
    simp only [handle_callback_query,
      append_beq_eq_false "payment_" "cancel" v (by decide),
      append_beq_eq_false "payment_" "report_channels" v (by decide),
      append_beq_eq_false "payment_" "report_products" v (by decide),
      append_beq_eq_false "payment_" "report_expenses" v (by decide),
      append_beq_eq_false "payment_" "manual_price" v (by decide),
      startsWith_append_eq_false "payment_" "expense_cat_" v (by decide) (by decide),
      startsWith_append_eq_false "payment_" "type_" v (by decide) (by decide),
      startsWith_append_eq_false "payment_" "width_" v (by decide) (by decide),
      startsWith_append_eq_false "payment_" "size_" v (by decide) (by decide),
      startsWith_append_eq_false "payment_" "length_" v (by decide) (by decide),
      startsWith_append_eq_false "payment_" "colortype_" v (by decide) (by decide),
      startsWith_append_eq_false "payment_" "color_" v (by decide) (by decide),
      startsWith_append_self, hch, hf, Bool.false_eq_true, Bool.true_and,
      Bool.and_true, Bool.and_false, Bool.false_and, if_false, if_true,
      ite_false, ite_true]

/-- The draft used by the C10 witness: channel, product type and width
already filled. -/
def c10Draft : UserState :=
  { freshState 4 "site" with product_type := some "Шлейка", width := some "2" }

/-- Witness for C10: a concrete `size_M` press on a draft with channel,
product type and width filled writes exactly the size. -/
theorem C10_witness :
    handle_callback_query 4 (some c10Draft) ("size_" ++ "M") [] []
      = (some { c10Draft with size := some (pyReplace ("size_" ++ "M") "size_" "") },
         Reply.colorTypePrompt) := by
  exact (C10_single_field_frame 4 c10Draft "M" [] []).2.1 (by decide) (by decide)

/-! ### Quantity step (`handle_quantity`, lines 1562–1650) -/

/-- The finalized order as appended to the sales sheet (`record_data`):
fields used raw keep their nullability, fields passed through `or ""` are
plain strings. -/
structure LedgerRecord where
  channel : Option String
  product_type : Option String
  width : String
  size : String
  length : String
  color_type : String
  color : Option String
  quantity : Int
  price : ℚ
  total_amount : ℚ
  payment_method : Option String
  date : String
deriving DecidableEq

/-- The outbound reaction of the quantity handler. -/
inductive QtyReply where
  | manualPriceSkip
  | promptInteger
  | promptPositive
  | appendError
  | success
deriving DecidableEq

/-- Python `x or ""` on a nullable string. -/
def orEmpty : Option String → String
  | none => ""
  | some s => s

/-- Embedding of `handle_quantity`: `text` is the operator's message,
`manualPriceInput` the context flag, `price` the context price
(`manual_price` or `price`), `userData` the snapshot stored at the payment
step, `draft` the persisted `user_states` row for the user, `ledger` the
sales sheet, `appendOk` whether the external append succeeds, and `today`
the formatted date.  Returns the new draft, the new ledger and the reply. -/
def handle_quantity (text : String) (manualPriceInput : Bool) (price : ℚ)
    (userData : UserState) (draft : Option UserState) (ledger : List LedgerRecord)
    (appendOk : Bool) (today : String) :
    Option UserState × List LedgerRecord × QtyReply :=
  if manualPriceInput then (draft, ledger, .manualPriceSkip)
  else
    match pyIntOfStr (pyStrip text) with
    | none => (draft, ledger, .promptInteger)
    | some quantity =>
      if quantity ≤ 0 then (draft, ledger, .promptPositive)
      else
        let total_amount := price * quantity
        let record : LedgerRecord :=
          { channel := userData.channel
            product_type := userData.product_type
            width := orEmpty userData.width
            size := orEmpty userData.size
            length := orEmpty userData.length
            color_type := orEmpty userData.color_type
            color := userData.color
            quantity := quantity
            price := price
            total_amount := total_amount
            payment_method := userData.payment_method
            date := today }
        if appendOk then (none, ledger ++ [record], .success)
        else (draft, ledger, .appendError)

/-- Claim C3: non-integer or non-positive input re-prompts with the draft
and ledger unchanged; a positive integer `q` appends one ledger row with
`total = q * price` and deletes the draft; if the append fails the draft is
retained and the ledger unchanged, so the same quantity can be retried. -/
theorem C3_quantity_step (text : String) (price : ℚ) (userData : UserState)
    (draft : Option UserState) (ledger : List LedgerRecord) (today : String) :
    (pyIntOfStr (pyStrip text) = none →
      handle_quantity text false price userData draft ledger true today
        = (draft, ledger, .promptInteger)) ∧
    (∀ q : Int, pyIntOfStr (pyStrip text) = some q → q ≤ 0 →
      handle_quantity text false price userData draft ledger true today
        = (draft, ledger, .promptPositive)) ∧
    (∀ q : Int, pyIntOfStr (pyStrip text) = some q → 0 < q →
      handle_quantity text false price userData draft ledger true today
        = (none, ledger ++
            [{ channel := userData.channel, product_type := userData.product_type,
               width := orEmpty userData.width, size := orEmpty userData.size,
               length := orEmpty userData.length,
               color_type := orEmpty userData.color_type, color := userData.color,
               quantity := q, price := price, total_amount := (q : ℚ) * price,
               payment_method := userData.payment_method, date := today }],
           .success)) ∧
    (∀ q : Int, pyIntOfStr (pyStrip text) = some q → 0 < q →
      handle_quantity text false price userData draft ledger false today
        = (draft, ledger, .appendError)) := by
  refine ⟨?_, ?_, ?_, ?_⟩
  · intro h
    simp [handle_quantity, h]
  · intro q h hq
    simp [handle_quantity, h, hq]
  · intro q h hq
    simp [handle_quantity, h, not_le.mpr hq, mul_comm]
  · intro q h hq
    simp [handle_quantity, h, not_le.mpr hq]

/-- Witness for C3 at concrete inputs: `"abc"` re-prompts, `"0"` re-prompts,
`"3"` with price 500 appends a row with total 1500 and clears the draft, and
the same input with a failing append retains the draft and ledger. -/
theorem C3_witness :
    (pyIntOfStr (pyStrip "abc") = none ∧
      handle_quantity "abc" false 500 (freshState 7 "site") (some (freshState 7 "site"))
          [] true "05.10.2025"
        = (some (freshState 7 "site"), [], .promptInteger)) ∧
    (pyIntOfStr (pyStrip "0") = some 0 ∧
      handle_quantity "0" false 500 (freshState 7 "site") (some (freshState 7 "site"))
          [] true "05.10.2025"
        = (some (freshState 7 "site"), [], .promptPositive)) ∧
    (handle_quantity "3" false 500 (freshState 7 "site") (some (freshState 7 "site"))
          [] true "05.10.2025"
        = (none, [] ++
            [{ channel := some "site", product_type := none, width := "", size := "",
               length := "", color_type := "", color := none, quantity := 3,
               price := 500, total_amount := (3 : ℚ) * 500,
               payment_method := none, date := "05.10.2025" }],
           .success)) ∧
    handle_quantity "3" false 500 (freshState 7 "site") (some (freshState 7 "site"))
        [] false "05.10.2025"
      = (some (freshState 7 "site"), [], .appendError) := by
  have h := C3_quantity_step "3" 500 (freshState 7 "site") (some (freshState 7 "site"))
    [] "05.10.2025"
  refine ⟨⟨by decide, ?_⟩, ⟨by decide, ?_⟩, ?_, ?_⟩
  · exact (C3_quantity_step "abc" 500 (freshState 7 "site") (some (freshState 7 "site"))
      [] "05.10.2025").1 (by decide)
  · exact (C3_quantity_step "0" 500 (freshState 7 "site") (some (freshState 7 "site"))
      [] "05.10.2025").2.1 0 (by decide) (by decide)
  · exact h.2.2.1 3 (by decide) (by decide)
  · exact h.2.2.2 3 (by decide) (by decide)

/-! ### Report aggregators (`generate_channel_report` lines 589–652,
`generate_product_report` lines 655–720) -/

/-- Gregorian leap-year rule (as `datetime` uses). -/
def isLeapYear (y : Nat) : Bool := (y % 4 = 0 && y % 100 ≠ 0) || y % 400 = 0

/-- Days in a month. -/
def daysInMonth (m y : Nat) : Nat :=
  if m = 2 then (if isLeapYear y then 29 else 28)
  else if m = 4 ∨ m = 6 ∨ m = 9 ∨ m = 11 then 30
  else 31

/-- Days before the first of month `m` within year `y`. -/
def daysBeforeMonth (m y : Nat) : Nat :=
  (List.range (m - 1)).foldl (fun a i => a + daysInMonth (i + 1) y) 0

/-- Proleptic Gregorian ordinal of a calendar date (the comparison scale for
`datetime` values; `datetime.now()` may carry a fractional day). -/
def dateOrdinal (d m y : Nat) : Nat :=
  365 * (y - 1) + (y - 1) / 4 - (y - 1) / 100 + (y - 1) / 400 + daysBeforeMonth m y + d

/-- Split a character list on `'.'`. -/
def splitDot : List Char → List (List Char)
  | [] => [[]]
  | c :: cs =>
    if c = '.' then [] :: splitDot cs
    else
      match splitDot cs with
      | [] => [[c]]
      | g :: gs => (c :: g) :: gs

/-- Model of `datetime.strptime(s, "%d.%m.%Y")`: three dot-separated digit
groups (day and month 1–2 digits, year 1–4 digits), with the day validated
against the month length and leap years; yields the date's ordinal. -/
def parseDateDMY (s : String) : Option Nat :=
  match splitDot s.data with
  | [ds, ms, ys] =>
    if ds ≠ [] ∧ ds.length ≤ 2 ∧ ds.all isDigitChar ∧
       ms ≠ [] ∧ ms.length ≤ 2 ∧ ms.all isDigitChar ∧
       ys ≠ [] ∧ ys.length ≤ 4 ∧ ys.all isDigitChar then
      let d := natOfDigits ds
      let m := natOfDigits ms
      let y := natOfDigits ys
      if 1 ≤ m ∧ m ≤ 12 ∧ 1 ≤ d ∧ d ≤ daysInMonth m y ∧ 1 ≤ y then
        some (dateOrdinal d m y)
      else none
    else none
  | _ => none

/-- One parsed sales row as produced by `get_sales_data`. -/
structure SaleRow where
  channel : String
  product_type : String
  width : String
  size : String
  length : String
  color_type : String
  color : String
  quantity : Nat
  price : ℚ
  total_amount : ℚ
  payment_method : String
  date : String
deriving DecidableEq

/-- The reports' period filter (`[s for s in data if s["date"] and
strptime(s["date"]) >= cutoff]`): an empty date is skipped; a non-empty
date that fails to parse raises (`strptime` `ValueError`), which the
report's outer `except` turns into a failed report; otherwise the row is
kept iff its date ordinal is at least `now - periodDays`.  No upper bound
is applied. -/
def filterByPeriod : List SaleRow → Int → Int → Except Unit (List SaleRow)
  | [], _, _ => .ok []
  | r :: rs, now, pd =>
    if r.date = "" then filterByPeriod rs now pd
    else
      match parseDateDMY r.date with
      | none => .error ()
      | some o =>
        (filterByPeriod rs now pd).map
          (fun l => if now - pd ≤ (o : Int) then r :: l else l)

/-- Per-group accumulator (`{"total_sales": .., "total_amount": ..,
"count": ..}`). -/
structure GroupStats where
  total_sales : Nat
  total_amount : ℚ
  count : Nat
deriving DecidableEq

/-- One grouping step: Python-dict semantics — update the stats in place if
the key exists, otherwise append a fresh entry at the end (insertion
order). -/
def bumpGroup (key : String) (q : Nat) (amt : ℚ) :
    List (String × GroupStats) → List (String × GroupStats)
  | [] => [(key, ⟨q, amt, 1⟩)]
  | (k, st) :: rest =>
    if k = key then
      (k, ⟨st.total_sales + q, st.total_amount + amt, st.count + 1⟩) :: rest
    else (k, st) :: bumpGroup key q amt rest

/-- Group the filtered rows by a key, keeping first-appearance order. -/
def groupBy (key : SaleRow → String) (rows : List SaleRow) :
    List (String × GroupStats) :=
  rows.foldl (fun acc r => bumpGroup (key r) r.quantity r.total_amount acc) []

/-- The sort relation of `sorted(..., key=total_amount, reverse=True)`:
descending summed amount.  `List.insertionSort` with this relation is a
stable descending sort, extensionally equal to Python's `sorted`. -/
def amountGE (a b : String × GroupStats) : Prop :=
  b.2.total_amount ≤ a.2.total_amount

instance : DecidableRel amountGE := fun a b =>
  inferInstanceAs (Decidable (b.2.total_amount ≤ a.2.total_amount))

instance : IsTotal (String × GroupStats) amountGE :=
  ⟨fun a b => le_total b.2.total_amount a.2.total_amount⟩

instance : IsTrans (String × GroupStats) amountGE :=
  ⟨fun _ _ _ h1 h2 => le_trans h2 h1⟩

/-- Python `/`, which raises `ZeroDivisionError` on a zero denominator. -/
def pydiv (a b : ℚ) : Option ℚ := if b = 0 then none else some (a / b)

/-- One rendered group of the channel report; `avgCheck` is the *unguarded*
per-group division `total_amount / count` of the source. -/
structure ChannelGroup where
  channel : String
  stats : GroupStats
  avgCheck : Option ℚ
deriving DecidableEq

/-- The channel report: sorted groups and the grand-total block, whose
average is guarded by `if total_count > 0` (a zero count renders the
literal `0`). -/
structure ChannelReport where
  groups : List ChannelGroup
  totalSales : Nat
  totalAmount : ℚ
  totalCount : Nat
  totalAvg : ℚ
deriving DecidableEq

/-- Embedding of `generate_channel_report`: filter by period (a bad date
fails the whole report), group by channel, sort by descending summed
amount (stable), render per-group stats with the unguarded average, and a
grand total over all groups with a guarded average. -/
def generate_channel_report (sales : List SaleRow) (now periodDays : Int) :
    Except Unit ChannelReport :=
  (filterByPeriod sales now periodDays).map fun filtered =>
    let stats := groupBy (fun r => r.channel) filtered
    let sortedStats := List.insertionSort amountGE stats
    let totalSales := (stats.map (fun g => g.2.total_sales)).sum
    let totalAmount := (stats.map (fun g => g.2.total_amount)).sum
    let totalCount := (stats.map (fun g => g.2.count)).sum
    { groups := sortedStats.map
        (fun g => ⟨g.1, g.2, pydiv g.2.total_amount (g.2.count : ℚ)⟩)
      totalSales := totalSales
      totalAmount := totalAmount
      totalCount := totalCount
      totalAvg := if 0 < totalCount then totalAmount / (totalCount : ℚ) else 0 }

/-- One rendered group of the product report; its average is guarded by
`if total_sales > 0` (a zero sales count renders the literal `0`). -/
structure ProductGroup where
  product_type : String
  stats : GroupStats
  avgPrice : ℚ
deriving DecidableEq

/-- The product report: sorted groups and the grand-total block. -/
structure ProductReport where
  groups : List ProductGroup
  totalSales : Nat
  totalAmount : ℚ
  totalCount : Nat
  totalAvg : ℚ
deriving DecidableEq

/-- Embedding of `generate_product_report`: like the channel report but
grouped by product type, with the per-group average guarded by
`total_sales > 0`. -/
def generate_product_report (sales : List SaleRow) (now periodDays : Int) :
    Except Unit ProductReport :=
  (filterByPeriod sales now periodDays).map fun filtered =>
    let stats := groupBy (fun r => r.product_type) filtered
    let sortedStats := List.insertionSort amountGE stats
    let totalSales := (stats.map (fun g => g.2.total_sales)).sum
    let totalAmount := (stats.map (fun g => g.2.total_amount)).sum
    let totalCount := (stats.map (fun g => g.2.count)).sum
    { groups := sortedStats.map
        (fun g => ⟨g.1, g.2,
          if 0 < g.2.total_sales then g.2.total_amount / (g.2.total_sales : ℚ) else 0⟩)
      totalSales := totalSales
      totalAmount := totalAmount
      totalCount := totalCount
      totalAvg := if 0 < totalCount then totalAmount / (totalCount : ℚ) else 0 }

/-- Every entry produced by one grouping step has a positive count when the
accumulator's entries do. -/
theorem bumpGroup_count_pos (k : String) (q : Nat) (amt : ℚ) :
    ∀ acc : List (String × GroupStats), (∀ e ∈ acc, 1 ≤ e.2.count) →
      ∀ e ∈ bumpGroup k q amt acc, 1 ≤ e.2.count := by
  intro acc
  induction acc with
  | nil =>
    intro _ e he
    simp only [bumpGroup, List.mem_singleton] at he
    subst he
    exact Nat.le_refl 1
  | cons a rest ih =>
    intro hacc e he
    obtain ⟨ka, sta⟩ := a
    simp only [bumpGroup] at he
    by_cases hk : ka = k
    · rw [if_pos hk] at he
      rcases List.mem_cons.mp he with rfl | he
      · exact Nat.le_add_left 1 _
      · exact hacc _ (List.mem_cons_of_mem _ he)
    · rw [if_neg hk] at he
      rcases List.mem_cons.mp he with rfl | he
      · exact hacc _ (List.mem_cons_self _ _)
      · exact ih (fun x hx => hacc x (List.mem_cons_of_mem _ hx)) e he

/-- Every group produced by the report grouping has a positive count. -/
theorem groupBy_count_pos (key : SaleRow → String) (rows : List SaleRow) :
    ∀ e ∈ groupBy key rows, 1 ≤ e.2.count := by
  suffices h : ∀ acc : List (String × GroupStats), (∀ e ∈ acc, 1 ≤ e.2.count) →
      ∀ e ∈ rows.foldl
        (fun acc r => bumpGroup (key r) r.quantity r.total_amount acc) acc,
        1 ≤ e.2.count by
    exact h [] (by simp)
  induction rows with
  | nil => intro acc hacc; simpa using hacc
  | cons r rest ih =>
    intro acc hacc
    exact ih _ (bumpGroup_count_pos _ _ _ acc hacc)

/-- A list containing a non-empty unparsable date makes the period filter
(and hence the whole report) fail. -/
theorem filterByPeriod_error (sales : List SaleRow) (now pd : Int)
    (h : ∃ r ∈ sales, r.date ≠ "" ∧ parseDateDMY r.date = none) :
    filterByPeriod sales now pd = .error () := by
  induction sales with
  | nil => simp at h
  | cons a rs ih =>
    obtain ⟨r, hmem, hne, hnone⟩ := h
    rcases List.mem_cons.mp hmem with rfl | hmem
    · simp [filterByPeriod, hne, hnone]
    · by_cases hd : a.date = ""
      · simp only [filterByPeriod, if_pos hd]
        exact ih ⟨r, hmem, hne, hnone⟩
      · cases hpo : parseDateDMY a.date with
        | none => simp [filterByPeriod, hd, hpo]
        | some o =>
          simp only [filterByPeriod, if_neg hd, hpo]
          rw [ih ⟨r, hmem, hne, hnone⟩]
          rfl

/-- The period-membership predicate characterising which rows the filter
keeps: a non-empty date that parses to an ordinal at least `now - pd`.
There is no upper bound. -/
def inPeriod (now pd : Int) (r : SaleRow) : Bool :=
  (r.date != "") &&
    (match parseDateDMY r.date with
     | none => false
     | some o => decide (now - pd ≤ (o : Int)))

/-- Claim C8 (amended): when every row's date is empty or parseable, the
filter succeeds and keeps exactly the rows whose date is non-empty and
parses to an ordinal `≥ now - periodDays` (missing dates are excluded, and
there is no upper bound, so future-dated rows are included); but one
non-empty unparsable date makes both reports fail as a whole instead of
being excluded. -/
theorem C8_date_filter_amended (sales : List SaleRow) (now pd : Int) :
    ((∀ r ∈ sales, r.date = "" ∨ (parseDateDMY r.date).isSome) →
      filterByPeriod sales now pd = .ok (sales.filter (inPeriod now pd))) ∧
    ((∃ r ∈ sales, r.date ≠ "" ∧ parseDateDMY r.date = none) →
      generate_channel_report sales now pd = .error () ∧
      generate_product_report sales now pd = .error ()) ∧
    (∀ r o, r.date ≠ "" → parseDateDMY r.date = some o → now - pd ≤ (o : Int) →
      inPeriod now pd r = true) := by
  refine ⟨?_, ?_, ?_⟩
  · intro h
    induction sales with
    | nil => simp [filterByPeriod]
    | cons a rs ih =>
      have ha := h a (List.mem_cons_self _ _)
      have hrs := fun x hx => h x (List.mem_cons_of_mem _ hx)
      by_cases hd : a.date = ""
      · simp [filterByPeriod, hd, inPeriod, ih hrs, List.filter_cons]
      · rcases ha with ha | hsome
        · exact absurd ha hd
        · obtain ⟨o, ho⟩ := Option.isSome_iff_exists.mp hsome
          by_cases hc : now - pd ≤ (o : Int) <;>
            simp [filterByPeriod, hd, ho, ih hrs, inPeriod, List.filter_cons, hc,
              Except.map]
  · intro h
    have hf := filterByPeriod_error sales now pd h
    constructor
    · simp [generate_channel_report, hf, Except.map]
    · simp [generate_product_report, hf, Except.map]
  · intro r o h1 h2 h3
    simp [inPeriod, h1, h2, h3]

/-- Witness for the amended C8 on concrete rows. -/
theorem C8_amended_witness :
    (∀ r ∈ [(⟨"Site", "t", "", "", "", "", "red", 1, 100, 100, "Cash", "05.10.2025"⟩ :
        SaleRow)], r.date = "" ∨ (parseDateDMY r.date).isSome) ∧
    filterByPeriod [⟨"Site", "t", "", "", "", "", "red", 1, 100, 100, "Cash", "05.10.2025"⟩]
        ((dateOrdinal 5 10 2025 : Nat) : Int) 30
      = .ok ([⟨"Site", "t", "", "", "", "", "red", 1, 100, 100, "Cash", "05.10.2025"⟩].filter
          (inPeriod ((dateOrdinal 5 10 2025 : Nat) : Int) 30)) := by
  refine ⟨by decide, ?_⟩
  exact (C8_date_filter_amended _ _ _).1 (by decide)

/-- Decidable equality for `Except`, so the concrete report computations can
be settled by `decide`. -/
instance {e a : Type} [DecidableEq e] [DecidableEq a] : DecidableEq (Except e a) :=
  fun x y =>
  match x, y with
  | .error e1, .error e2 =>
    if h : e1 = e2 then isTrue (by rw [h]) else isFalse (fun hc => h (by injection hc))
  | .ok x1, .ok y1 =>
    if h : x1 = y1 then isTrue (by rw [h]) else isFalse (fun hc => h (by injection hc))
  | .error _, .ok _ => isFalse (fun hc => Except.noConfusion hc)
  | .ok _, .error _ => isFalse (fun hc => Except.noConfusion hc)

/-- The reference instant for the concrete report examples: midnight of
05.10.2025 on the ordinal scale. -/
def repNow : Int := ((dateOrdinal 5 10 2025 : Nat) : Int)

/-- A valid sales row on channel `b`, amount 100. -/
def rowChanB : SaleRow :=
  ⟨"b", "t", "", "", "", "", "red", 1, 100, 100, "Cash", "05.10.2025"⟩

/-- A valid sales row on channel `a`, amount 100. -/
def rowChanA : SaleRow :=
  ⟨"a", "t", "", "", "", "", "red", 1, 100, 100, "Cash", "05.10.2025"⟩

/-- A sales row with a non-empty, unparsable date. -/
def rowBadDate : SaleRow :=
  ⟨"a", "t", "", "", "", "", "red", 1, 100, 100, "Cash", "garbage"⟩

/-- Counterexample to claim C8: a single unparsable date makes the whole
channel report fail (it does not exclude the row and aggregate the rest —
dropping the bad row gives a successful report). -/
theorem C8_counterexample :
    generate_channel_report [rowChanB, rowBadDate] repNow 30 = .error () ∧
    generate_channel_report [rowChanB] repNow 30 ≠ .error () := by
  exact ⟨by decide, by decide⟩

/-- Claim C7 (amended): each report's groups are sorted by descending
summed amount (ties keep the stable first-appearance order of Python's
`sorted`, *not* lexical key order); the grand-total block aggregates
count/quantity/amount across all groups; and no division by zero occurs:
the channel report's unguarded per-group average always has a positive
count, and the guarded averages render a literal 0 on a zero
denominator. -/
theorem C7_report_aggregation_amended (sales : List SaleRow) (now pd : Int) :
    (∀ cr : ChannelReport, generate_channel_report sales now pd = .ok cr →
      cr.groups.Pairwise (fun a b => b.stats.total_amount ≤ a.stats.total_amount) ∧
      (∀ g ∈ cr.groups, g.avgCheck.isSome = true) ∧
      cr.totalAmount = (cr.groups.map (fun g => g.stats.total_amount)).sum ∧
      cr.totalCount = (cr.groups.map (fun g => g.stats.count)).sum ∧
      cr.totalSales = (cr.groups.map (fun g => g.stats.total_sales)).sum ∧
      (cr.totalCount = 0 → cr.totalAvg = 0)) ∧
    (∀ pr : ProductReport, generate_product_report sales now pd = .ok pr →
      pr.groups.Pairwise (fun a b => b.stats.total_amount ≤ a.stats.total_amount) ∧
      pr.totalAmount = (pr.groups.map (fun g => g.stats.total_amount)).sum ∧
      pr.totalCount = (pr.groups.map (fun g => g.stats.count)).sum ∧
      pr.totalSales = (pr.groups.map (fun g => g.stats.total_sales)).sum ∧
      (∀ g ∈ pr.groups, g.stats.total_sales = 0 → g.avgPrice = 0) ∧
      (pr.totalCount = 0 → pr.totalAvg = 0)) := by
  constructor
  · intro cr hcr
    unfold generate_channel_report at hcr
    cases hfp : filterByPeriod sales now pd with
    | error e => rw [hfp] at hcr; cases hcr
    | ok filtered =>
      rw [hfp] at hcr
      simp only [Except.map] at hcr
      injection hcr with hcr
      subst hcr
      dsimp only
      refine ⟨?_, ?_, ?_, ?_, ?_, ?_⟩
      · rw [List.pairwise_map]
        exact List.sorted_insertionSort amountGE _
      · intro g hg
        obtain ⟨ga, hga, rfl⟩ := List.mem_map.mp hg
        have hmem : ga ∈ groupBy (fun r => r.channel) filtered :=
          (List.mem_insertionSort amountGE).mp hga
        have h1 : 1 ≤ ga.2.count := groupBy_count_pos _ _ _ hmem
        have h2 : ((ga.2.count : Nat) : ℚ) ≠ 0 := by
          exact_mod_cast Nat.one_le_iff_ne_zero.mp h1
        simp [pydiv, h2]
      · rw [List.map_map]
        exact (((List.perm_insertionSort amountGE _).map _).sum_eq).symm
      · rw [List.map_map]
        exact_mod_cast (((List.perm_insertionSort amountGE
          (groupBy (fun r => r.channel) filtered)).map (fun g => g.2.count)).sum_eq).symm
      · rw [List.map_map]
        exact_mod_cast (((List.perm_insertionSort amountGE
          (groupBy (fun r => r.channel) filtered)).map (fun g => g.2.total_sales)).sum_eq).symm
      · intro h0
        simp [h0]
  · intro pr hpr
    unfold generate_product_report at hpr
    cases hfp : filterByPeriod sales now pd with
    | error e => rw [hfp] at hpr; cases hpr
    | ok filtered =>
      rw [hfp] at hpr
      simp only [Except.map] at hpr
      injection hpr with hpr
      subst hpr
      dsimp only
      refine ⟨?_, ?_, ?_, ?_, ?_, ?_⟩
      · rw [List.pairwise_map]
        exact List.sorted_insertionSort amountGE _
      · rw [List.map_map]
        exact (((List.perm_insertionSort amountGE _).map _).sum_eq).symm
      · rw [List.map_map]
        exact_mod_cast (((List.perm_insertionSort amountGE
          (groupBy (fun r => r.product_type) filtered)).map (fun g => g.2.count)).sum_eq).symm
      · rw [List.map_map]
        exact_mod_cast (((List.perm_insertionSort amountGE
          (groupBy (fun r => r.product_type) filtered)).map
            (fun g => g.2.total_sales)).sum_eq).symm
      · intro g hg h0
        obtain ⟨ga, hga, rfl⟩ := List.mem_map.mp hg
        dsimp only at h0 ⊢
        simp [h0]
      · intro h0
        simp [h0]

/-- The channel report computed by the C7 witness's concrete input. -/
def c7Report : ChannelReport :=
  (generate_channel_report [rowChanB, rowChanA] repNow 30).toOption.getD
    ⟨[], 0, 0, 0, 0⟩

/-- Witness for the amended C7 at a concrete input: the report on the two
tied rows exists, its groups are sorted by (weakly) descending amount, and
its grand total is the sum over its groups. -/
theorem C7_amended_witness :
    generate_channel_report [rowChanB, rowChanA] repNow 30 = .ok c7Report ∧
    c7Report.groups.Pairwise (fun a b => b.stats.total_amount ≤ a.stats.total_amount) ∧
    c7Report.totalAmount = (c7Report.groups.map (fun g => g.stats.total_amount)).sum := by
  have h : generate_channel_report [rowChanB, rowChanA] repNow 30 = .ok c7Report := rfl
  exact ⟨h, ((C7_report_aggregation_amended [rowChanB, rowChanA] repNow 30).1
      c7Report h).1,
    ((C7_report_aggregation_amended [rowChanB, rowChanA] repNow 30).1 c7Report h).2.2.1⟩

/-- Counterexample to claim C7: two channels `b` and `a` with equal summed
amount come out in first-appearance order `[b, a]`, not in the claimed
lexical ascending order `[a, b]`. -/
theorem C7_counterexample :
    (generate_channel_report [rowChanB, rowChanA] repNow 30).map
        (fun r => r.groups.map (fun g => g.channel)) = .ok ["b", "a"] ∧
    (["b", "a"] : List String) ≠ ["a", "b"] := by
  exact ⟨by decide, by decide⟩

end DogSalesBot
